import Mathlib

/-!
Shallow embedding of the trello-mentoring-generator repository
(src/trello_career_planner): the template data model (template.py), the
board generator (generator.py), the API client request/error handling
(api_client.py), credential validation (credentials.py), the CLI
credential phase (cli.py) and the interactive move-cards flow (edit.py).

Remote Trello calls are modelled by an oracle: a function mapping the
index of the call in the issued-call sequence and the call itself to a
success response or a `TrelloAPIError`.  The generator is translated as
explicit state passing over a state holding the issued-call trace, the
progress record and the name-to-remote-id label map.
-/

namespace Trello

/-! ## Data model, from template.py -/

/-- `CardTemplate` dataclass of template.py. -/
structure CardTemplate where
  name : String
  description : String := ""
  labels : List String := []
deriving Repr, DecidableEq

/-- `ListTemplate` dataclass of template.py. -/
structure ListTemplate where
  name : String
  cards : List CardTemplate := []
deriving Repr, DecidableEq

/-- `LabelTemplate` dataclass of template.py. -/
structure LabelTemplate where
  name : String
  color : String
deriving Repr, DecidableEq

/-- `BoardTemplate` dataclass of template.py. -/
structure BoardTemplate where
  name : String
  description : String
  labels : List LabelTemplate := []
  lists : List ListTemplate := []
deriving Repr, DecidableEq

/-- `get_tech_career_template` of template.py, transcribed in full. -/
def get_tech_career_template : BoardTemplate :=
  { name := "Tech Career Planning",
    description := "A comprehensive board for planning and tracking your tech career development. Includes goals, skills assessment, learning plans, networking strategies, and job search preparation.",
    labels := [
      { name := "High Priority", color := "red" },
      { name := "In Progress", color := "yellow" },
      { name := "Completed", color := "green" },
      { name := "Learning", color := "blue" },
      { name := "Networking", color := "purple" },
      { name := "Long Term", color := "orange" }
    ],
    lists := [
      { name := "Career Goals",
        cards := [
          { name := "Define 1-Year Career Vision",
            description := "Write a clear statement of where you want to be in your tech career one year from now. Include target role, skills, and company type.",
            labels := ["High Priority"] },
          { name := "Define 5-Year Career Vision",
            description := "Outline your long-term career aspirations. Consider leadership vs individual contributor paths, specialization areas, and industry focus.",
            labels := ["Long Term"] },
          { name := "Identify Target Roles",
            description := "Research and list 3-5 specific job titles that align with your career goals. Include required qualifications for each.",
            labels := ["High Priority"] },
          { name := "Salary & Compensation Goals",
            description := "Research market rates for your target roles. Set realistic compensation goals for 1, 3, and 5 year timeframes.",
            labels := ["Long Term"] }
        ] },
      { name := "Skills Assessment",
        cards := [
          { name := "Current Technical Skills Inventory",
            description := "List all your current technical skills with proficiency levels (beginner, intermediate, advanced, expert).",
            labels := ["In Progress"] },
          { name := "Soft Skills Assessment",
            description := "Evaluate your communication, leadership, problem-solving, and collaboration skills. Identify strengths and areas for improvement.",
            labels := ["In Progress"] },
          { name := "Skills Gap Analysis",
            description := "Compare your current skills against requirements for target roles. Identify the most critical gaps to address.",
            labels := ["High Priority"] },
          { name := "Competitive Advantage Identification",
            description := "Identify unique combinations of skills, experiences, or perspectives that differentiate you from other candidates.",
            labels := ["In Progress"] }
        ] },
      { name := "Learning & Development",
        cards := [
          { name := "Online Courses to Complete",
            description := "List prioritized online courses (Coursera, Udemy, Pluralsight, etc.) that address your skills gaps.",
            labels := ["Learning"] },
          { name := "Certifications to Pursue",
            description := "Research and list relevant certifications (AWS, GCP, Azure, Kubernetes, etc.) with timelines and costs.",
            labels := ["Learning", "High Priority"] },
          { name := "Books & Reading List",
            description := "Curate a list of technical books, leadership books, and industry publications to read.",
            labels := ["Learning"] },
          { name := "Side Projects",
            description := "Define 2-3 side projects that demonstrate skills relevant to your target roles. Include GitHub portfolio goals.",
            labels := ["Learning", "In Progress"] },
          { name := "Conference & Workshop Attendance",
            description := "Identify conferences, meetups, and workshops to attend. Include both virtual and in-person options.",
            labels := ["Learning", "Networking"] }
        ] },
      { name := "Networking",
        cards := [
          { name := "LinkedIn Profile Optimization",
            description := "Update headline, summary, experience sections. Add skills, get endorsements, and request recommendations.",
            labels := ["Networking", "High Priority"] },
          { name := "Build Professional Network",
            description := "Set goals for connecting with industry professionals. Aim for quality connections with personalized messages.",
            labels := ["Networking"] },
          { name := "Find Mentors",
            description := "Identify potential mentors in your target career path. Develop a strategy for reaching out and building relationships.",
            labels := ["Networking", "High Priority"] },
          { name := "Join Professional Communities",
            description := "Research and join relevant Slack communities, Discord servers, subreddits, and professional associations.",
            labels := ["Networking"] },
          { name := "Content Creation & Thought Leadership",
            description := "Plan blog posts, tweets, or talks that showcase your expertise. Build your personal brand in the tech community.",
            labels := ["Networking", "Long Term"] }
        ] },
      { name := "Job Search Preparation",
        cards := [
          { name := "Update Resume",
            description := "Tailor resume for target roles. Quantify achievements, use action verbs, and optimize for ATS systems.",
            labels := ["High Priority"] },
          { name := "Prepare Portfolio",
            description := "Create or update your portfolio website. Showcase best projects with clear descriptions of your contributions.",
            labels := ["High Priority"] },
          { name := "Practice Technical Interviews",
            description := "Schedule regular practice on LeetCode, HackerRank, or similar. Focus on data structures, algorithms, and system design.",
            labels := ["In Progress"] },
          { name := "Practice Behavioral Interviews",
            description := "Prepare STAR format stories for common behavioral questions. Practice with peers or use platforms like Pramp.",
            labels := ["In Progress"] },
          { name := "Research Target Companies",
            description := "Create a list of target companies. Research their culture, tech stack, interview process, and recent news.",
            labels := ["In Progress"] }
        ] },
      { name := "Weekly Actions",
        cards := [
          { name := "Weekly Learning Block",
            description := "Block 5+ hours per week for focused learning. Track progress on courses and certifications.",
            labels := ["Learning", "In Progress"] },
          { name := "Weekly Networking Activity",
            description := "Send at least 2 meaningful connection requests or messages per week. Engage with content from your network.",
            labels := ["Networking", "In Progress"] },
          { name := "Weekly Coding Practice",
            description := "Solve at least 3 coding problems per week. Review and learn from solutions.",
            labels := ["Learning", "In Progress"] },
          { name := "Weekly Reflection",
            description := "Every Friday, review progress on career goals. Adjust priorities and celebrate wins.",
            labels := ["In Progress"] }
        ] },
      { name := "Completed",
        cards := [
          { name := "Archive completed items here",
            description := "Move cards here as you complete them. Regularly review to see your progress!",
            labels := ["Completed"] }
        ] }
    ] }

/-! ## API client error and remote-call model, from api_client.py -/

/-- `TrelloAPIError` of api_client.py: a message and an optional numeric
HTTP status code (`None` for transport-level failures). -/
structure TrelloAPIError where
  message : String
  status_code : Option Nat := none
deriving Repr, DecidableEq

/-- One client-method remote call issued by the generator: the four
creating client methods used by generator.py, with the arguments the
generator passes (`create_board` is always called with
`default_lists=False`; `labelIds = none` models Python `labels=None`). -/
inductive ApiCall where
  | createBoard (name : String) (desc : String)
  | createLabel (boardId : String) (name : String) (color : String)
  | createList (boardId : String) (name : String)
  | createCard (listId : String) (name : String) (desc : String)
      (labelIds : Option (List String))
deriving Repr, DecidableEq

/-- The subset of a successful create-call JSON response the generator
reads: the `id` field, and for boards the optional `url` field. -/
structure ApiResponse where
  id : String
  url : Option String := none
deriving Repr, DecidableEq

/-- The remote environment: the outcome of the `n`-th issued call. -/
def Oracle : Type := Nat → ApiCall → Except TrelloAPIError ApiResponse

/-- Whether an `Except` result is a failure. -/
def exceptFailed {ε α : Type} : Except ε α → Bool
  | Except.ok _ => false
  | Except.error _ => true

/-- An oracle under which every remote call succeeds. -/
def allOk (o : Oracle) : Prop :=
  ∀ n c, exceptFailed (o n c) = false

/-! ## Generator state, from generator.py -/

/-- `GenerationProgress` dataclass of generator.py. -/
structure GenerationProgress where
  total_lists : Nat := 0
  total_cards : Nat := 0
  lists_created : Nat := 0
  cards_created : Nat := 0
  labels_created : Nat := 0
  current_step : String := ""
  errors : List String := []
deriving Repr, DecidableEq

/-- `GeneratedBoard` dataclass of generator.py. -/
structure GeneratedBoard where
  board_id : String
  board_url : String
  board_name : String
  lists_created : Nat
  cards_created : Nat
  labels_created : Nat
deriving Repr, DecidableEq

/-- The generator run state: the sequence of remote calls issued so far,
the `self.progress` record, and `self._label_map` (an association list,
newest binding first, matching Python dict insert-or-overwrite under
`List.lookup`). -/
structure GenState where
  trace : List ApiCall := []
  progress : GenerationProgress := {}
  labelMap : List (String × String) := []
deriving Repr, DecidableEq

/-- Issue one remote call: record it in the trace and return the
oracle's outcome for it (outcomes are indexed by position in the
trace). -/
def issueCall (o : Oracle) (s : GenState) (c : ApiCall) :
    GenState × Except TrelloAPIError ApiResponse :=
  ({ s with trace := s.trace ++ [c] }, o s.trace.length c)

/-- `_update_progress` of generator.py: only sets `current_step` (the
progress callback is side-effect free on the generator state). -/
def update_progress (s : GenState) (step : String) : GenState :=
  { s with progress := { s.progress with current_step := step } }

/-- One iteration of the `_create_labels` loop of generator.py: issue
`create_label`; on success record the name-to-id mapping, bump
`labels_created` and set the step; on `TrelloAPIError` append the error
string. -/
def create_label_step (o : Oracle) (board_id : String) (lt : LabelTemplate)
    (s : GenState) : GenState :=
  match issueCall o s (ApiCall.createLabel board_id lt.name lt.color) with
  | (s1, Except.ok label) =>
      { s1 with
        labelMap := (lt.name, label.id) :: s1.labelMap,
        progress := { s1.progress with
          labels_created := s1.progress.labels_created + 1,
          current_step := "Created label: " ++ lt.name } }
  | (s1, Except.error e) =>
      { s1 with progress := { s1.progress with
          errors := s1.progress.errors ++
            ["Failed to create label " ++ lt.name ++ ": " ++ e.message] } }

/-- `_create_labels` of generator.py: the loop over `template.labels`. -/
def create_labels (o : Oracle) (board_id : String) :
    List LabelTemplate → GenState → GenState
  | [], s => s
  | lt :: rest, s => create_labels o board_id rest (create_label_step o board_id lt s)

/-- The label ids `_create_card` of generator.py resolves for a card:
`[self._label_map[n] for n in card_template.labels if n in self._label_map]`. -/
def resolveLabels (labelMap : List (String × String)) (names : List String) :
    List String :=
  names.filterMap (fun n => labelMap.lookup n)

/-- The `create_card` call `_create_card` of generator.py issues:
`labels=label_ids if label_ids else None`. -/
def mkCardCall (labelMap : List (String × String)) (list_id : String)
    (ct : CardTemplate) : ApiCall :=
  let label_ids := resolveLabels labelMap ct.labels
  ApiCall.createCard list_id ct.name ct.description
    (if label_ids.isEmpty then none else some label_ids)

/-- `_create_card` of generator.py: issue the card call; on success bump
`cards_created` and set the step; on `TrelloAPIError` append the error
string. -/
def create_card (o : Oracle) (list_id : String) (ct : CardTemplate)
    (s : GenState) : GenState :=
  match issueCall o s (mkCardCall s.labelMap list_id ct) with
  | (s1, Except.ok _) =>
      { s1 with progress := { s1.progress with
          cards_created := s1.progress.cards_created + 1,
          current_step := "Created card: " ++ ct.name } }
  | (s1, Except.error e) =>
      { s1 with progress := { s1.progress with
          errors := s1.progress.errors ++
            ["Failed to create card " ++ ct.name ++ ": " ++ e.message] } }

/-- The inner card loop of `_create_lists_and_cards` of generator.py. -/
def create_cards (o : Oracle) (list_id : String) :
    List CardTemplate → GenState → GenState
  | [], s => s
  | ct :: rest, s => create_cards o list_id rest (create_card o list_id ct s)

/-- One iteration of the `_create_lists_and_cards` loop of generator.py:
issue `create_list`; on success bump `lists_created`, set the step and
create the cards of the list; on `TrelloAPIError` append the error
string (the cards of the list are never attempted). -/
def create_list_step (o : Oracle) (board_id : String) (lt : ListTemplate)
    (s : GenState) : GenState :=
  match issueCall o s (ApiCall.createList board_id lt.name) with
  | (s1, Except.ok trello_list) =>
      create_cards o trello_list.id lt.cards
        { s1 with progress := { s1.progress with
            lists_created := s1.progress.lists_created + 1,
            current_step := "Created list: " ++ lt.name } }
  | (s1, Except.error e) =>
      { s1 with progress := { s1.progress with
          errors := s1.progress.errors ++
            ["Failed to create list " ++ lt.name ++ ": " ++ e.message] } }

/-- `_create_lists_and_cards` of generator.py: the loop over
`template.lists`. -/
def create_lists_and_cards (o : Oracle) (board_id : String) :
    List ListTemplate → GenState → GenState
  | [], s => s
  | lt :: rest, s =>
      create_lists_and_cards o board_id rest (create_list_step o board_id lt s)

/-- `name = board_name or template.name` of generator.py (Python `or`
falls back on an empty string too). -/
def resolveBoardName (board_name : Option String) (t : BoardTemplate) : String :=
  match board_name with
  | some s => if s = "" then t.name else s
  | none => t.name

/-- Total number of cards of a template. -/
def totalCards (t : BoardTemplate) : Nat :=
  (t.lists.map (fun lst => lst.cards.length)).sum

/-- The generator state `generate` starts from: fresh trace, fresh
progress holding the template totals and the first step message, fresh
label map. -/
def initialState (template : BoardTemplate) : GenState :=
  { trace := [],
    progress :=
      { total_lists := template.lists.length,
        total_cards := totalCards template,
        current_step := "Creating board..." },
    labelMap := [] }

/-- The part of `BoardGenerator.generate` of generator.py that runs
once board creation succeeded: labels, then lists and cards, then the
result record built from the final progress counters. -/
def afterBoard (o : Oracle) (template : BoardTemplate) (name : String)
    (board : ApiResponse) (s1 : GenState) :
    GenState × Except TrelloAPIError GeneratedBoard :=
  let board_url := board.url.getD ("https://trello.com/b/" ++ board.id)
  let s2 := update_progress s1 "Creating labels..."
  let s3 := create_labels o board.id template.labels s2
  let s4 := update_progress s3 "Creating lists and cards..."
  let s5 := create_lists_and_cards o board.id template.lists s4
  let s6 := update_progress s5 "Board generation complete!"
  (s6, Except.ok
    { board_id := board.id,
      board_url := board_url,
      board_name := name,
      lists_created := s6.progress.lists_created,
      cards_created := s6.progress.cards_created,
      labels_created := s6.progress.labels_created })

/-- `BoardGenerator.generate` of generator.py: fresh progress with the
totals, board creation (raising, i.e. returning `Except.error`, when it
fails), then `afterBoard`.  Returns the final generator state together
with the raised-or-returned result. -/
def generate (o : Oracle) (template : BoardTemplate)
    (board_name : Option String := none) :
    GenState × Except TrelloAPIError GeneratedBoard :=
  let name := resolveBoardName board_name template
  match issueCall o (initialState template)
      (ApiCall.createBoard name template.description) with
  | (s1, Except.error e) => (s1, Except.error e)
  | (s1, Except.ok board) => afterBoard o template name board s1

/-- The call the first step of `generate` issues for a template and an
optional board-name override. -/
def boardCall (template : BoardTemplate) (board_name : Option String) : ApiCall :=
  ApiCall.createBoard (resolveBoardName board_name template) template.description

/-- Classification of an issued call, keeping the template-level name:
used to state call-order properties independently of the remote ids the
oracle returned. -/
inductive CallKind where
  | board (name : String)
  | label (name : String)
  | listC (name : String)
  | card (name : String)
deriving Repr, DecidableEq

/-- The kind of an issued call. -/
def callKind : ApiCall → CallKind
  | ApiCall.createBoard name _ => CallKind.board name
  | ApiCall.createLabel _ name _ => CallKind.label name
  | ApiCall.createList _ name => CallKind.listC name
  | ApiCall.createCard _ name _ _ => CallKind.card name

/-- The number of failing calls among `cs` when they are issued starting
at trace position `pos`. -/
def countFailures (o : Oracle) : Nat → List ApiCall → Nat
  | _, [] => 0
  | pos, c :: rest =>
      (if exceptFailed (o pos c) then 1 else 0) + countFailures o (pos + 1) rest

/-- The sum of the three created-entity counters of a progress record. -/
def createdSum (p : GenerationProgress) : Nat :=
  p.labels_created + p.lists_created + p.cards_created

/-- Modelled from the spec: the expected kind sequence of the calls
`_create_lists_and_cards` issues from trace position `pos` on — for each
template list in order one list-create call, followed by one card-create
call per card of the list when the list-create call succeeded and by no
card-create call when it failed.  Written from the spec sentences, to be
compared with the implementation's trace. -/
def expectedListCardKinds (o : Oracle) (board_id : String) :
    Nat → List ListTemplate → List CallKind
  | _, [] => []
  | pos, lt :: rest =>
      if exceptFailed (o pos (ApiCall.createList board_id lt.name)) then
        CallKind.listC lt.name :: expectedListCardKinds o board_id (pos + 1) rest
      else
        CallKind.listC lt.name ::
          (lt.cards.map (fun c => CallKind.card c.name) ++
            expectedListCardKinds o board_id (pos + 1 + lt.cards.length) rest)

/-! ## HTTP request and error mapping, from api_client.py -/

/-- The data of an HTTP response `_request` of api_client.py reads: the
numeric status, `response.text`, and the outcome of `response.json()`
(`Except.error` carries the decode-failure text when the body is not
valid JSON). -/
structure HttpResponse where
  status : Nat
  text : String
  json : Except String String
deriving Repr

/-- The transport-level outcome of `self._session.request(...)`:
either a response arrived, or a `requests.exceptions.RequestException`
(DNS failure, connection refused, timeout) was raised with a message. -/
inductive HttpOutcome where
  | response (r : HttpResponse)
  | transportFailure (msg : String)
deriving Repr

/-- `_request` of api_client.py, given the transport outcome of the one
HTTP call it makes.  `response.raise_for_status()` of the requests
library raises `HTTPError` exactly for status codes 400-599; a decode
failure of `response.json()` on a non-raising response is a
`requests.exceptions.JSONDecodeError`, a `RequestException` (requests
>= 2.27), so it is caught by the transport-failure handler. -/
def request_ (out : HttpOutcome) : Except TrelloAPIError String :=
  match out with
  | HttpOutcome.transportFailure e =>
      Except.error { message := "Request failed: " ++ e, status_code := none }
  | HttpOutcome.response r =>
      if 400 ≤ r.status ∧ r.status < 600 then
        match r.json with
        | Except.ok detail =>
            Except.error { message := "Trello API error: " ++ detail,
                           status_code := some r.status }
        | Except.error _ =>
            Except.error { message := "Trello API error: " ++ r.text,
                           status_code := some r.status }
      else
        match r.json with
        | Except.ok body => Except.ok body
        | Except.error e =>
            Except.error { message := "Request failed: " ++ e, status_code := none }

/-- The request data `_request` of api_client.py sends: method, endpoint
and the query parameters, the two authentication parameters merged in
front (Python builds `request_params` from the auth dict and then
`update`s it with the operation's parameters; no operation parameter
uses the keys `key` or `token`). -/
structure Request where
  method : String
  endpoint : String
  params : List (String × String)
deriving Repr, DecidableEq

/-- An optional query parameter: absent when the value is `none`. -/
def optParam (key : String) (v : Option String) : List (String × String) :=
  match v with
  | none => []
  | some s => [(key, s)]

/-- `str(closed).lower()` of update_card. -/
def pyBoolStr (b : Bool) : String := if b then "true" else "false"

/-- The `params` dict `TrelloClient.update_card` of api_client.py
builds, in insertion order: every argument passed as `None` is omitted;
`due_date` falls back to the literal string `"null"` when it is falsy
(the empty string); `labels` is sent as the comma-joined ids, the empty
string for the empty list. -/
def update_card_params (name description : Option String) (closed : Option Bool)
    (due_date : Option String) (labels : Option (List String)) :
    List (String × String) :=
  optParam "name" name ++
  optParam "desc" description ++
  optParam "closed" (closed.map pyBoolStr) ++
  optParam "due" (due_date.map (fun d => if d = "" then "null" else d)) ++
  optParam "idLabels"
    (labels.map (fun ls => if ls.isEmpty then "" else String.intercalate "," ls))

/-- The full request `TrelloClient.update_card` of api_client.py hands
to `_request`: `PUT /cards/{card_id}` with the authentication parameters
and the built parameter dict. -/
def update_card_request (api_key token card_id : String)
    (name description : Option String) (closed : Option Bool)
    (due_date : Option String) (labels : Option (List String)) : Request :=
  { method := "PUT",
    endpoint := "/cards/" ++ card_id,
    params := [("key", api_key), ("token", token)] ++
      update_card_params name description closed due_date labels }

/-! ## Credentials, from credentials.py, and the CLI credential phase -/

/-- `TrelloCredentials` dataclass of credentials.py (its
`__post_init__` non-emptiness check is separate from
`validate_credentials` and not needed here). -/
structure TrelloCredentials where
  api_key : String
  token : String
deriving Repr, DecidableEq

/-- The message `validate_credentials` raises for a short API key. -/
def keyTooShortMsg : String :=
  "API key appears too short. Trello API keys are typically 32 characters."

/-- The message `validate_credentials` raises for a short token. -/
def tokenTooShortMsg : String :=
  "Token appears too short. Trello tokens are typically 64 characters."

/-- `validate_credentials` of credentials.py: a raised `CredentialError`
is `Except.error` with its message. -/
def validate_credentials (credentials : TrelloCredentials) :
    Except String Bool :=
  if credentials.api_key.length < 16 then Except.error keyTooShortMsg
  else if credentials.token.length < 32 then Except.error tokenTooShortMsg
  else Except.ok true

/-- The flags of the parsed CLI arguments that steer the credential
phase of `main` in cli.py. -/
structure CliArgs where
  setup_help : Bool := false
  dry_run : Bool := false
deriving Repr, DecidableEq

/-- The credential phase of `main` in cli.py (lines 703-726): after the
setup-help and dry-run early returns (both network-free), credentials
are loaded (`load_credentials` reads arguments, environment and .env
file — no network) and validated; a `CredentialError` from either step
returns exit code 1 before the `TrelloClient` is even constructed.
Everything from the client construction on (verify, delete, edit,
generation — all the network traffic) is abstracted as `rest`, a
function from the validated credentials to an exit code and the list of
network requests made. -/
def main (args : CliArgs) (loadResult : Except String TrelloCredentials)
    (rest : TrelloCredentials → Nat × List Request) : Nat × List Request :=
  if args.setup_help then (0, [])
  else if args.dry_run then (0, [])
  else
    match loadResult with
    | Except.error _ => (1, [])
    | Except.ok credentials =>
        match validate_credentials credentials with
        | Except.error _ => (1, [])
        | Except.ok _ => rest credentials

/-! ## Interactive move-cards flow, from edit.py -/

/-- The fields of a remote list or card object the move-cards flow
reads: `id` and `name`. -/
structure RemoteObj where
  id : String
  name : String
deriving Repr, DecidableEq

/-- `_execute_card_moves` of edit.py: one `move_card` call per selected
card; a `TrelloAPIError` is reported per card and does not abort the
rest; returns whether any card was moved, together with the issued
(card-id, list-id) move calls and the printed messages. -/
def execute_card_moves (mv : String → String → Except TrelloAPIError Unit)
    (cards : List RemoteObj) (target_list : RemoteObj) :
    Bool × List (String × String) × List String :=
  let r := cards.foldl
    (fun (acc : Nat × List (String × String) × List String) card =>
      match mv card.id target_list.id with
      | Except.ok _ => (acc.1 + 1, acc.2.1 ++ [(card.id, target_list.id)], acc.2.2)
      | Except.error e =>
          (acc.1, acc.2.1 ++ [(card.id, target_list.id)],
           acc.2.2 ++ ["Failed to move \'" ++ card.name ++ "\': " ++ e.message]))
    (0, [], [])
  (decide (0 < r.1), r.2.1,
   r.2.2 ++ ["Moved " ++ toString r.1 ++ " card(s) to \'" ++ target_list.name ++ "\'."])

/-- `move_cards` of edit.py.  The two remote reads are given as their
outcomes; the interactive selections (`select_list`, `select_cards`) as
functions of the offered choices, `none` / the empty selection standing
for cancellation; `mv` is `client.move_card`.  Returns whether cards
were moved, the issued move calls and the printed messages. -/
def move_cards (fetchLists : Except TrelloAPIError (List RemoteObj))
    (selectSource : List RemoteObj → Option RemoteObj)
    (fetchCards : String → Except TrelloAPIError (List RemoteObj))
    (selectCardsFn : List RemoteObj → List RemoteObj)
    (selectTarget : List RemoteObj → Option RemoteObj)
    (mv : String → String → Except TrelloAPIError Unit) :
    Bool × List (String × String) × List String :=
  match fetchLists with
  | Except.error e => (false, [], ["Failed to get lists: " ++ e.message])
  | Except.ok lists =>
      match selectSource lists with
      | none => (false, [], [])
      | some source_list =>
          match fetchCards source_list.id with
          | Except.error e => (false, [], ["Failed to get cards: " ++ e.message])
          | Except.ok cards =>
              let selected_cards := selectCardsFn cards
              if selected_cards.isEmpty then (false, [], ["No cards selected."])
              else
                match selectTarget lists with
                | none => (false, [], [])
                | some target_list =>
                    if target_list.id = source_list.id then
                      (false, [],
                       ["Source and target list are the same. No cards moved."])
                    else execute_card_moves mv selected_cards target_list

/-- The referential-integrity check of the static template, as a
computable predicate: every label name referenced by any card of any
list is the name of some label of the template. -/
def templateLabelIntegrity (t : BoardTemplate) : Bool :=
  t.lists.all (fun lt =>
    lt.cards.all (fun ct =>
      ct.labels.all (fun n => t.labels.any (fun lb => lb.name == n))))

/-- A small fixture template for concrete-input witnesses: one label,
two lists, three cards, one card referencing the label and one card
referencing a name with no label. -/
def wTemplate : BoardTemplate :=
  { name := "B",
    description := "D",
    labels := [{ name := "Priority", color := "red" }],
    lists := [
      { name := "To Do",
        cards := [
          { name := "cardA", description := "", labels := ["Priority"] },
          { name := "cardB", description := "", labels := [] }
        ] },
      { name := "Done",
        cards := [{ name := "cardC", description := "", labels := [] }] }
    ] }

/-- A fixture oracle under which every remote call succeeds. -/
def wOracle : Oracle := fun _ _ => Except.ok { id := "rid", url := none }

/-! ## Lemmas about the generator helpers -/

/-- The call one `_create_labels` iteration issues. -/
def labelCall (board_id : String) (lt : LabelTemplate) : ApiCall :=
  ApiCall.createLabel board_id lt.name lt.color

theorem create_label_step_trace (o : Oracle) (bid : String) (lt : LabelTemplate)
    (s : GenState) :
    (create_label_step o bid lt s).trace = s.trace ++ [labelCall bid lt] := by
  unfold create_label_step issueCall labelCall
  cases o s.trace.length (ApiCall.createLabel bid lt.name lt.color) <;> rfl

theorem create_label_step_labels_created (o : Oracle) (bid : String)
    (lt : LabelTemplate) (s : GenState) :
    (create_label_step o bid lt s).progress.labels_created +
        (if exceptFailed (o s.trace.length (labelCall bid lt)) then 1 else 0) =
      s.progress.labels_created + 1 := by
  unfold create_label_step issueCall labelCall exceptFailed
  cases o s.trace.length (ApiCall.createLabel bid lt.name lt.color) <;> rfl

theorem create_label_step_errors (o : Oracle) (bid : String)
    (lt : LabelTemplate) (s : GenState) :
    (create_label_step o bid lt s).progress.errors.length =
      s.progress.errors.length +
        (if exceptFailed (o s.trace.length (labelCall bid lt)) then 1 else 0) := by
  unfold create_label_step issueCall labelCall exceptFailed
  cases o s.trace.length (ApiCall.createLabel bid lt.name lt.color) <;>
    simp [List.length_append]

theorem create_label_step_other (o : Oracle) (bid : String)
    (lt : LabelTemplate) (s : GenState) :
    (create_label_step o bid lt s).progress.lists_created =
        s.progress.lists_created ∧
      (create_label_step o bid lt s).progress.cards_created =
        s.progress.cards_created := by
  unfold create_label_step issueCall
  cases o s.trace.length (ApiCall.createLabel bid lt.name lt.color) <;> exact ⟨rfl, rfl⟩

theorem create_labels_trace (o : Oracle) (bid : String) (ls : List LabelTemplate) :
    ∀ s : GenState,
      (create_labels o bid ls s).trace = s.trace ++ ls.map (labelCall bid) := by
  induction ls with
  | nil => intro s; simp [create_labels]
  | cons lt rest ih =>
      intro s
      simp only [create_labels, List.map_cons]
      rw [ih, create_label_step_trace]
      simp

theorem create_labels_labels_created (o : Oracle) (bid : String)
    (ls : List LabelTemplate) : ∀ s : GenState,
    (create_labels o bid ls s).progress.labels_created +
        countFailures o s.trace.length (ls.map (labelCall bid)) =
      s.progress.labels_created + ls.length := by
  induction ls with
  | nil => intro s; simp [create_labels, countFailures]
  | cons lt rest ih =>
      intro s
      simp only [create_labels, List.map_cons, countFailures, List.length_cons]
      have hstep := create_label_step_labels_created o bid lt s
      have hlen : (create_label_step o bid lt s).trace.length = s.trace.length + 1 := by
        rw [create_label_step_trace]; simp
      have := ih (create_label_step o bid lt s)
      rw [hlen] at this
      omega

theorem create_labels_errors (o : Oracle) (bid : String)
    (ls : List LabelTemplate) : ∀ s : GenState,
    (create_labels o bid ls s).progress.errors.length =
      s.progress.errors.length +
        countFailures o s.trace.length (ls.map (labelCall bid)) := by
  induction ls with
  | nil => intro s; simp [create_labels, countFailures]
  | cons lt rest ih =>
      intro s
      simp only [create_labels, List.map_cons, countFailures]
      have hstep := create_label_step_errors o bid lt s
      have hlen : (create_label_step o bid lt s).trace.length = s.trace.length + 1 := by
        rw [create_label_step_trace]; simp
      have := ih (create_label_step o bid lt s)
      rw [hlen] at this
      omega

theorem create_labels_other (o : Oracle) (bid : String)
    (ls : List LabelTemplate) : ∀ s : GenState,
    (create_labels o bid ls s).progress.lists_created =
        s.progress.lists_created ∧
      (create_labels o bid ls s).progress.cards_created =
        s.progress.cards_created := by
  induction ls with
  | nil => intro s; exact ⟨rfl, rfl⟩
  | cons lt rest ih =>
      intro s
      have hstep := create_label_step_other o bid lt s
      have := ih (create_label_step o bid lt s)
      simp only [create_labels]
      omega

theorem create_card_trace (o : Oracle) (lid : String) (ct : CardTemplate)
    (s : GenState) :
    (create_card o lid ct s).trace = s.trace ++ [mkCardCall s.labelMap lid ct] := by
  unfold create_card issueCall
  cases o s.trace.length (mkCardCall s.labelMap lid ct) <;> rfl

theorem create_card_labelMap (o : Oracle) (lid : String) (ct : CardTemplate)
    (s : GenState) : (create_card o lid ct s).labelMap = s.labelMap := by
  unfold create_card issueCall
  cases o s.trace.length (mkCardCall s.labelMap lid ct) <;> rfl

theorem create_card_cards_created (o : Oracle) (lid : String) (ct : CardTemplate)
    (s : GenState) :
    (create_card o lid ct s).progress.cards_created +
        (if exceptFailed (o s.trace.length (mkCardCall s.labelMap lid ct)) then 1
         else 0) =
      s.progress.cards_created + 1 := by
  unfold create_card issueCall exceptFailed
  cases o s.trace.length (mkCardCall s.labelMap lid ct) <;> rfl

theorem create_card_errors (o : Oracle) (lid : String) (ct : CardTemplate)
    (s : GenState) :
    (create_card o lid ct s).progress.errors.length =
      s.progress.errors.length +
        (if exceptFailed (o s.trace.length (mkCardCall s.labelMap lid ct)) then 1
         else 0) := by
  unfold create_card issueCall exceptFailed
  cases o s.trace.length (mkCardCall s.labelMap lid ct) <;>
    simp [List.length_append]

theorem create_card_other (o : Oracle) (lid : String) (ct : CardTemplate)
    (s : GenState) :
    (create_card o lid ct s).progress.lists_created = s.progress.lists_created ∧
      (create_card o lid ct s).progress.labels_created =
        s.progress.labels_created := by
  unfold create_card issueCall
  cases o s.trace.length (mkCardCall s.labelMap lid ct) <;> exact ⟨rfl, rfl⟩

theorem create_cards_trace (o : Oracle) (lid : String) (cs : List CardTemplate) :
    ∀ s : GenState,
      (create_cards o lid cs s).trace =
        s.trace ++ cs.map (mkCardCall s.labelMap lid) := by
  induction cs with
  | nil => intro s; simp [create_cards]
  | cons ct rest ih =>
      intro s
      simp only [create_cards, List.map_cons]
      rw [ih, create_card_trace, create_card_labelMap]
      simp

theorem create_cards_labelMap (o : Oracle) (lid : String) (cs : List CardTemplate) :
    ∀ s : GenState, (create_cards o lid cs s).labelMap = s.labelMap := by
  induction cs with
  | nil => intro s; rfl
  | cons ct rest ih =>
      intro s
      simp only [create_cards]
      rw [ih, create_card_labelMap]

theorem create_cards_cards_created (o : Oracle) (lid : String)
    (cs : List CardTemplate) : ∀ s : GenState,
    (create_cards o lid cs s).progress.cards_created +
        countFailures o s.trace.length (cs.map (mkCardCall s.labelMap lid)) =
      s.progress.cards_created + cs.length := by
  induction cs with
  | nil => intro s; simp [create_cards, countFailures]
  | cons ct rest ih =>
      intro s
      simp only [create_cards, List.map_cons, countFailures, List.length_cons]
      have hstep := create_card_cards_created o lid ct s
      have hlen : (create_card o lid ct s).trace.length = s.trace.length + 1 := by
        rw [create_card_trace]; simp
      have hmap := create_card_labelMap o lid ct s
      have := ih (create_card o lid ct s)
      rw [hlen, hmap] at this
      omega

theorem create_cards_errors (o : Oracle) (lid : String)
    (cs : List CardTemplate) : ∀ s : GenState,
    (create_cards o lid cs s).progress.errors.length =
      s.progress.errors.length +
        countFailures o s.trace.length (cs.map (mkCardCall s.labelMap lid)) := by
  induction cs with
  | nil => intro s; simp [create_cards, countFailures]
  | cons ct rest ih =>
      intro s
      simp only [create_cards, List.map_cons, countFailures]
      have hstep := create_card_errors o lid ct s
      have hlen : (create_card o lid ct s).trace.length = s.trace.length + 1 := by
        rw [create_card_trace]; simp
      have hmap := create_card_labelMap o lid ct s
      have := ih (create_card o lid ct s)
      rw [hlen, hmap] at this
      omega

theorem create_cards_other (o : Oracle) (lid : String)
    (cs : List CardTemplate) : ∀ s : GenState,
    (create_cards o lid cs s).progress.lists_created =
        s.progress.lists_created ∧
      (create_cards o lid cs s).progress.labels_created =
        s.progress.labels_created := by
  induction cs with
  | nil => intro s; exact ⟨rfl, rfl⟩
  | cons ct rest ih =>
      intro s
      have hstep := create_card_other o lid ct s
      have := ih (create_card o lid ct s)
      simp only [create_cards]
      omega

theorem callKind_mkCardCall (m : List (String × String)) (lid : String)
    (ct : CardTemplate) : callKind (mkCardCall m lid ct) = CallKind.card ct.name := rfl

theorem map_callKind_mkCardCall (m : List (String × String)) (lid : String)
    (cs : List CardTemplate) :
    (cs.map (mkCardCall m lid)).map callKind =
      cs.map (fun c => CallKind.card c.name) := by
  induction cs with
  | nil => rfl
  | cons ct rest ih => simp only [List.map_cons, callKind_mkCardCall, ih]

theorem countFailures_le (o : Oracle) (cs : List ApiCall) :
    ∀ pos, countFailures o pos cs ≤ cs.length := by
  induction cs with
  | nil => intro pos; simp [countFailures]
  | cons c rest ih =>
      intro pos
      simp only [countFailures, List.length_cons]
      have := ih (pos + 1)
      split <;> omega

theorem update_progress_trace (s : GenState) (step : String) :
    (update_progress s step).trace = s.trace := rfl

theorem update_progress_labelMap (s : GenState) (step : String) :
    (update_progress s step).labelMap = s.labelMap := rfl

theorem update_progress_labels (s : GenState) (step : String) :
    (update_progress s step).progress.labels_created =
      s.progress.labels_created := rfl

theorem update_progress_lists (s : GenState) (step : String) :
    (update_progress s step).progress.lists_created =
      s.progress.lists_created := rfl

theorem update_progress_cards (s : GenState) (step : String) :
    (update_progress s step).progress.cards_created =
      s.progress.cards_created := rfl

theorem update_progress_errors (s : GenState) (step : String) :
    (update_progress s step).progress.errors = s.progress.errors := rfl

theorem update_progress_createdSum (s : GenState) (step : String) :
    createdSum (update_progress s step).progress = createdSum s.progress := rfl

theorem create_list_step_fail (o : Oracle) (bid : String) (lt : ListTemplate)
    (s : GenState) (e : TrelloAPIError)
    (h : o s.trace.length (ApiCall.createList bid lt.name) = Except.error e) :
    create_list_step o bid lt s =
      { s with
        trace := s.trace ++ [ApiCall.createList bid lt.name],
        progress := { s.progress with
          errors := s.progress.errors ++
            ["Failed to create list " ++ lt.name ++ ": " ++ e.message] } } := by
  unfold create_list_step issueCall
  rw [h]

theorem create_list_step_ok (o : Oracle) (bid : String) (lt : ListTemplate)
    (s : GenState) (resp : ApiResponse)
    (h : o s.trace.length (ApiCall.createList bid lt.name) = Except.ok resp) :
    create_list_step o bid lt s =
      create_cards o resp.id lt.cards
        { s with
          trace := s.trace ++ [ApiCall.createList bid lt.name],
          progress := { s.progress with
            lists_created := s.progress.lists_created + 1,
            current_step := "Created list: " ++ lt.name } } := by
  unfold create_list_step issueCall
  rw [h]

/-- The trace of `_create_lists_and_cards`, projected to call kinds,
follows exactly the spec-side expected shape: one list-create call per
template list in order, its cards attempted exactly when the list-create
call succeeded. -/
theorem create_lists_and_cards_kinds (o : Oracle) (bid : String)
    (ls : List ListTemplate) : ∀ s : GenState,
    (create_lists_and_cards o bid ls s).trace.map callKind =
      s.trace.map callKind ++ expectedListCardKinds o bid s.trace.length ls := by
  induction ls with
  | nil => intro s; simp [create_lists_and_cards, expectedListCardKinds]
  | cons lt rest ih =>
      intro s
      rw [create_lists_and_cards]
      cases h : o s.trace.length (ApiCall.createList bid lt.name) with
      | error e =>
          rw [create_list_step_fail o bid lt s e h, ih]
          simp [expectedListCardKinds, h, exceptFailed, callKind]
      | ok resp =>
          have hexp : expectedListCardKinds o bid s.trace.length (lt :: rest) =
              CallKind.listC lt.name ::
                (lt.cards.map (fun c => CallKind.card c.name) ++
                  expectedListCardKinds o bid
                    (s.trace.length + 1 + lt.cards.length) rest) := by
            simp [expectedListCardKinds, h, exceptFailed]
          rw [create_list_step_ok o bid lt s resp h, ih, create_cards_trace, hexp]
          simp only [List.map_append, List.map_cons, List.length_append,
            List.length_cons, List.length_nil, List.length_map, callKind,
            map_callKind_mkCardCall, List.append_assoc, List.cons_append,
            List.nil_append]
          have harith : s.trace.length + (lt.cards.length + 1) =
              s.trace.length + 1 + lt.cards.length := by omega
          rw [harith]

theorem create_labels_balance (o : Oracle) (bid : String)
    (ls : List LabelTemplate) (s : GenState) :
    (create_labels o bid ls s).trace.length + createdSum s.progress +
        s.progress.errors.length =
      s.trace.length + createdSum (create_labels o bid ls s).progress +
        (create_labels o bid ls s).progress.errors.length := by
  have h1 := create_labels_trace o bid ls s
  have h2 := create_labels_labels_created o bid ls s
  have h3 := create_labels_errors o bid ls s
  have h4 := create_labels_other o bid ls s
  have hlen : (create_labels o bid ls s).trace.length =
      s.trace.length + ls.length := by rw [h1]; simp
  simp only [createdSum]
  omega

theorem create_cards_balance (o : Oracle) (lid : String)
    (cs : List CardTemplate) (s : GenState) :
    (create_cards o lid cs s).trace.length + createdSum s.progress +
        s.progress.errors.length =
      s.trace.length + createdSum (create_cards o lid cs s).progress +
        (create_cards o lid cs s).progress.errors.length := by
  have h1 := create_cards_trace o lid cs s
  have h2 := create_cards_cards_created o lid cs s
  have h3 := create_cards_errors o lid cs s
  have h4 := create_cards_other o lid cs s
  have hlen : (create_cards o lid cs s).trace.length =
      s.trace.length + cs.length := by rw [h1]; simp
  simp only [createdSum]
  omega

theorem create_lists_and_cards_balance (o : Oracle) (bid : String)
    (ls : List ListTemplate) : ∀ s : GenState,
    (create_lists_and_cards o bid ls s).trace.length + createdSum s.progress +
        s.progress.errors.length =
      s.trace.length +
        createdSum (create_lists_and_cards o bid ls s).progress +
        (create_lists_and_cards o bid ls s).progress.errors.length := by
  induction ls with
  | nil => intro s; rfl
  | cons lt rest ih =>
      intro s
      rw [create_lists_and_cards]
      cases h : o s.trace.length (ApiCall.createList bid lt.name) with
      | error e =>
          rw [create_list_step_fail o bid lt s e h]
          have := ih { s with
            trace := s.trace ++ [ApiCall.createList bid lt.name],
            progress := { s.progress with
              errors := s.progress.errors ++
                ["Failed to create list " ++ lt.name ++ ": " ++ e.message] } }
          simp only [createdSum] at this ⊢
          simp at this
          omega
      | ok resp =>
          rw [create_list_step_ok o bid lt s resp h]
          set s1 : GenState :=
            { s with
              trace := s.trace ++ [ApiCall.createList bid lt.name],
              progress := { s.progress with
                lists_created := s.progress.lists_created + 1,
                current_step := "Created list: " ++ lt.name } } with hs1
          have hcards := create_cards_balance o resp.id lt.cards s1
          have := ih (create_cards o resp.id lt.cards s1)
          simp only [createdSum, hs1] at hcards this ⊢
          simp at hcards this
          omega

theorem create_lists_and_cards_labels_created (o : Oracle) (bid : String)
    (ls : List ListTemplate) : ∀ s : GenState,
    (create_lists_and_cards o bid ls s).progress.labels_created =
      s.progress.labels_created := by
  induction ls with
  | nil => intro s; rfl
  | cons lt rest ih =>
      intro s
      rw [create_lists_and_cards]
      cases h : o s.trace.length (ApiCall.createList bid lt.name) with
      | error e =>
          rw [create_list_step_fail o bid lt s e h, ih]
      | ok resp =>
          rw [create_list_step_ok o bid lt s resp h, ih,
            (create_cards_other o resp.id lt.cards _).2]

theorem create_lists_and_cards_trace_len (o : Oracle) (bid : String)
    (ls : List ListTemplate) : ∀ s : GenState,
    (create_lists_and_cards o bid ls s).trace.length ≤
      s.trace.length + ls.length + (ls.map (fun l => l.cards.length)).sum := by
  induction ls with
  | nil => intro s; simp [create_lists_and_cards]
  | cons lt rest ih =>
      intro s
      rw [create_lists_and_cards]
      cases h : o s.trace.length (ApiCall.createList bid lt.name) with
      | error e =>
          rw [create_list_step_fail o bid lt s e h]
          have := ih { s with
            trace := s.trace ++ [ApiCall.createList bid lt.name],
            progress := { s.progress with
              errors := s.progress.errors ++
                ["Failed to create list " ++ lt.name ++ ": " ++ e.message] } }
          simp at this ⊢
          omega
      | ok resp =>
          rw [create_list_step_ok o bid lt s resp h]
          set s1 : GenState :=
            { s with
              trace := s.trace ++ [ApiCall.createList bid lt.name],
              progress := { s.progress with
                lists_created := s.progress.lists_created + 1,
                current_step := "Created list: " ++ lt.name } } with hs1
          have hlen : (create_cards o resp.id lt.cards s1).trace.length =
              s1.trace.length + lt.cards.length := by
            rw [create_cards_trace]
            simp only [List.length_append, List.length_map]
          have := ih (create_cards o resp.id lt.cards s1)
          rw [hlen] at this
          simp only [hs1] at this ⊢
          simp at this ⊢
          omega

theorem countFailures_allOk (o : Oracle) (h : allOk o) (cs : List ApiCall) :
    ∀ pos, countFailures o pos cs = 0 := by
  induction cs with
  | nil => intro pos; rfl
  | cons c rest ih => intro pos; simp [countFailures, h pos c, ih]

theorem expectedListCardKinds_allOk (o : Oracle) (h : allOk o) (bid : String)
    (ls : List ListTemplate) : ∀ pos,
    expectedListCardKinds o bid pos ls =
      ls.flatMap (fun lt =>
        CallKind.listC lt.name :: lt.cards.map (fun c => CallKind.card c.name)) := by
  induction ls with
  | nil => intro pos; rfl
  | cons lt rest ih =>
      intro pos
      simp [expectedListCardKinds, h pos (ApiCall.createList bid lt.name),
        List.flatMap_cons, ih]

theorem create_labels_allOk (o : Oracle) (h : allOk o) (bid : String)
    (ls : List LabelTemplate) (s : GenState) :
    (create_labels o bid ls s).progress.labels_created =
      s.progress.labels_created + ls.length := by
  have := create_labels_labels_created o bid ls s
  rw [countFailures_allOk o h] at this
  omega

theorem create_cards_allOk (o : Oracle) (h : allOk o) (lid : String)
    (cs : List CardTemplate) (s : GenState) :
    (create_cards o lid cs s).progress.cards_created =
      s.progress.cards_created + cs.length := by
  have := create_cards_cards_created o lid cs s
  rw [countFailures_allOk o h] at this
  omega

theorem create_lists_and_cards_allOk (o : Oracle) (h : allOk o) (bid : String)
    (ls : List ListTemplate) : ∀ s : GenState,
    (create_lists_and_cards o bid ls s).progress.lists_created =
        s.progress.lists_created + ls.length ∧
      (create_lists_and_cards o bid ls s).progress.cards_created =
        s.progress.cards_created + (ls.map (fun l => l.cards.length)).sum := by
  induction ls with
  | nil => intro s; simp [create_lists_and_cards]
  | cons lt rest ih =>
      intro s
      rw [create_lists_and_cards]
      cases hc : o s.trace.length (ApiCall.createList bid lt.name) with
      | error e =>
          have := h s.trace.length (ApiCall.createList bid lt.name)
          rw [hc] at this
          exact absurd this (by simp [exceptFailed])
      | ok resp =>
          rw [create_list_step_ok o bid lt s resp hc]
          set s1 : GenState :=
            { s with
              trace := s.trace ++ [ApiCall.createList bid lt.name],
              progress := { s.progress with
                lists_created := s.progress.lists_created + 1,
                current_step := "Created list: " ++ lt.name } } with hs1
          have hcards := create_cards_allOk o h resp.id lt.cards s1
          have hlists := (create_cards_other o resp.id lt.cards s1).1
          have := ih (create_cards o resp.id lt.cards s1)
          simp only [hs1] at hcards hlists this ⊢
          simp only [List.map_cons, List.length_cons, List.sum_cons]
          omega

theorem map_callKind_labelCall (bid : String) (ls : List LabelTemplate) :
    (ls.map (labelCall bid)).map callKind =
      ls.map (fun l => CallKind.label l.name) := by
  induction ls with
  | nil => rfl
  | cons lt rest ih => simp only [List.map_cons, ih]; rfl

theorem initialState_trace (t : BoardTemplate) : (initialState t).trace = [] := rfl

theorem generate_fail (o : Oracle) (t : BoardTemplate) (bn : Option String)
    (e : TrelloAPIError) (h : o 0 (boardCall t bn) = Except.error e) :
    generate o t bn =
      ({ initialState t with trace := [boardCall t bn] }, Except.error e) := by
  unfold boardCall at h
  simp only [generate, issueCall, initialState_trace, List.length_nil, h]
  rfl

theorem generate_ok (o : Oracle) (t : BoardTemplate) (bn : Option String)
    (resp : ApiResponse) (h : o 0 (boardCall t bn) = Except.ok resp) :
    generate o t bn =
      afterBoard o t (resolveBoardName bn t) resp
        { initialState t with trace := [boardCall t bn] } := by
  unfold boardCall at h
  simp only [generate, issueCall, initialState_trace, List.length_nil, h]
  rfl

theorem afterBoard_state (o : Oracle) (t : BoardTemplate) (name : String)
    (board : ApiResponse) (s1 : GenState) :
    (afterBoard o t name board s1).1 =
      update_progress
        (create_lists_and_cards o board.id t.lists
          (update_progress
            (create_labels o board.id t.labels
              (update_progress s1 "Creating labels..."))
            "Creating lists and cards..."))
        "Board generation complete!" := rfl

theorem afterBoard_result (o : Oracle) (t : BoardTemplate) (name : String)
    (board : ApiResponse) (s1 : GenState) :
    (afterBoard o t name board s1).2 =
      Except.ok
        { board_id := board.id,
          board_url := board.url.getD ("https://trello.com/b/" ++ board.id),
          board_name := name,
          lists_created := (afterBoard o t name board s1).1.progress.lists_created,
          cards_created := (afterBoard o t name board s1).1.progress.cards_created,
          labels_created :=
            (afterBoard o t name board s1).1.progress.labels_created } := rfl

/-! ## Claim theorems -/

/-- C1: when every remote call succeeds, `BoardGenerator.generate`
issues exactly one board-create call, then one label-create call per
template label in template order, then for each template list in order
one list-create call followed by one card-create call per card of that
list in template order; the returned `GeneratedBoard` reports
`lists_created = L`, `cards_created = C` and `labels_created = N`. -/
theorem generate_allOk_trace_and_counts (o : Oracle) (t : BoardTemplate)
    (bn : Option String) (h : allOk o) :
    (∃ gb : GeneratedBoard,
        (generate o t bn).2 = Except.ok gb ∧
          gb.labels_created = t.labels.length ∧
          gb.lists_created = t.lists.length ∧
          gb.cards_created = totalCards t) ∧
      (generate o t bn).1.trace.map callKind =
        CallKind.board (resolveBoardName bn t) ::
          (t.labels.map (fun l => CallKind.label l.name) ++
            t.lists.flatMap (fun lt =>
              CallKind.listC lt.name ::
                lt.cards.map (fun c => CallKind.card c.name))) := by
  cases hb : o 0 (boardCall t bn) with
  | error e =>
      have hfail := h 0 (boardCall t bn)
      rw [hb] at hfail
      exact absurd hfail (by simp [exceptFailed])
  | ok resp =>
      rw [generate_ok o t bn resp hb]
      have hstate := afterBoard_state o t (resolveBoardName bn t) resp
        { initialState t with trace := [boardCall t bn] }
      constructor
      · refine ⟨_, afterBoard_result o t (resolveBoardName bn t) resp _, ?_, ?_, ?_⟩
        · show (afterBoard o t (resolveBoardName bn t) resp
              { initialState t with trace := [boardCall t bn] }).1.progress.labels_created =
            t.labels.length
          rw [hstate, update_progress_labels,
            create_lists_and_cards_labels_created, update_progress_labels,
            create_labels_allOk o h, update_progress_labels]
          simp [initialState]
        · show (afterBoard o t (resolveBoardName bn t) resp
              { initialState t with trace := [boardCall t bn] }).1.progress.lists_created =
            t.lists.length
          rw [hstate, update_progress_lists,
            (create_lists_and_cards_allOk o h resp.id t.lists _).1,
            update_progress_lists, (create_labels_other o resp.id t.labels _).1,
            update_progress_lists]
          simp [initialState]
        · show (afterBoard o t (resolveBoardName bn t) resp
              { initialState t with trace := [boardCall t bn] }).1.progress.cards_created =
            totalCards t
          rw [hstate, update_progress_cards,
            (create_lists_and_cards_allOk o h resp.id t.lists _).2,
            update_progress_cards, (create_labels_other o resp.id t.labels _).2,
            update_progress_cards]
          simp [initialState, totalCards]
      · rw [hstate, update_progress_trace, create_lists_and_cards_kinds,
          update_progress_trace, create_labels_trace,
          expectedListCardKinds_allOk o h]
        simp only [update_progress_trace, List.map_append,
          map_callKind_labelCall]
        rfl

/-- C2: `generate` raises (returns `Except.error`) exactly when the
initial board-create call fails; every other failing call is non-fatal
and is collected, one error string per failure, in the error list of the
final progress object — so the issued-call count always equals one
(board) plus the successes (each bumps exactly one created counter) plus
the collected errors — and no call is ever retried: the total number of
issued calls never exceeds 1 + N + L + C. -/
theorem generate_error_policy (o : Oracle) (t : BoardTemplate)
    (bn : Option String) :
    exceptFailed (generate o t bn).2 = exceptFailed (o 0 (boardCall t bn)) ∧
      (generate o t bn).1.trace.length =
        1 + createdSum (generate o t bn).1.progress +
          (generate o t bn).1.progress.errors.length ∧
      (generate o t bn).1.trace.length ≤
        1 + t.labels.length + t.lists.length + totalCards t := by
  cases hb : o 0 (boardCall t bn) with
  | error e =>
      rw [generate_fail o t bn e hb]
      refine ⟨rfl, ?_, ?_⟩
      · simp [createdSum, initialState]
      · simp only [List.length_cons, List.length_nil]
        omega
  | ok resp =>
      rw [generate_ok o t bn resp hb]
      rw [afterBoard_result, afterBoard_state]
      set sI : GenState := { initialState t with trace := [boardCall t bn] }
        with hsI
      set s2 : GenState := update_progress sI "Creating labels..." with hs2
      set s3 : GenState := create_labels o resp.id t.labels s2 with hs3
      set s4 : GenState := update_progress s3 "Creating lists and cards..."
        with hs4
      set s5 : GenState := create_lists_and_cards o resp.id t.lists s4 with hs5
      have hbal1 : s3.trace.length + createdSum s2.progress +
          s2.progress.errors.length =
          s2.trace.length + createdSum s3.progress +
            s3.progress.errors.length := create_labels_balance o resp.id t.labels s2
      have hbal2 : s5.trace.length + createdSum s4.progress +
          s4.progress.errors.length =
          s4.trace.length + createdSum s5.progress +
            s5.progress.errors.length :=
        create_lists_and_cards_balance o resp.id t.lists s4
      have hI1 : s2.trace.length = 1 := by
        rw [hs2, update_progress_trace, hsI]; rfl
      have hI2 : createdSum s2.progress = 0 := by
        rw [hs2, update_progress_createdSum, hsI]; rfl
      have hI3 : s2.progress.errors.length = 0 := by
        rw [hs2]
        have : (update_progress sI "Creating labels...").progress.errors =
            sI.progress.errors := update_progress_errors sI _
        rw [this, hsI]; rfl
      have h4t : s4.trace.length = s3.trace.length := by
        rw [hs4, update_progress_trace]
      have h4c : createdSum s4.progress = createdSum s3.progress := by
        rw [hs4, update_progress_createdSum]
      have h4e : s4.progress.errors.length = s3.progress.errors.length := by
        rw [hs4, update_progress_errors]
      have hlen3 : s3.trace.length = s2.trace.length + t.labels.length := by
        rw [hs3, create_labels_trace]; simp
      have hbound : s5.trace.length ≤
          s4.trace.length + t.lists.length + totalCards t := by
        have := create_lists_and_cards_trace_len o resp.id t.lists s4
        rw [hs5]
        exact this
      refine ⟨?_, ?_, ?_⟩
      · rfl
      · simp only [update_progress_trace, update_progress_createdSum]
        have : (update_progress s5 "Board generation complete!").progress.errors =
            s5.progress.errors := update_progress_errors s5 _
        rw [this]
        omega
      · simp only [update_progress_trace]
        omega

/-- C3: `_create_labels` attempts every template label with its own
create call, whatever fails before it, and the final `labels_created`
count equals N minus the number of failed label-create calls. -/
theorem create_labels_attempts_all (o : Oracle) (bid : String)
    (ls : List LabelTemplate) (s : GenState) :
    (create_labels o bid ls s).trace = s.trace ++ ls.map (labelCall bid) ∧
      countFailures o s.trace.length (ls.map (labelCall bid)) ≤ ls.length ∧
      (create_labels o bid ls s).progress.labels_created =
        s.progress.labels_created +
          (ls.length -
            countFailures o s.trace.length (ls.map (labelCall bid))) := by
  have h1 := create_labels_trace o bid ls s
  have h2 := create_labels_labels_created o bid ls s
  have h3 := countFailures_le o (ls.map (labelCall bid)) s.trace.length
  have hlen : (ls.map (labelCall bid)).length = ls.length := by simp
  exact ⟨h1, by omega, by omega⟩

/-- C4: the calls `_create_lists_and_cards` issues follow the expected
shape: one list-create call per template list in template order — a
failed list never stops the subsequent lists — and the card-create
calls of a list (one per card, in template order) appear exactly when
that list-create call succeeded, so no card of a failed list is ever
attempted. -/
theorem lists_and_cards_skip_failed_list (o : Oracle) (bid : String)
    (ls : List ListTemplate) (s : GenState) :
    (create_lists_and_cards o bid ls s).trace.map callKind =
      s.trace.map callKind ++ expectedListCardKinds o bid s.trace.length ls :=
  create_lists_and_cards_kinds o bid ls s

/-- C5: a card one of whose template label names has no entry in the map
of successfully created labels is still attempted: exactly one
create-card call is issued, carrying precisely the ids of the names that
resolve — and no label-id argument at all when none resolve; when the
call succeeds the error list is untouched (no error for the unresolved
name) and the card counts as created. -/
theorem create_card_unresolved_label (o : Oracle) (lid : String)
    (ct : CardTemplate) (s : GenState)
    (h : ∃ n, n ∈ ct.labels ∧ s.labelMap.lookup n = none) :
    (∃ ids : Option (List String),
        (create_card o lid ct s).trace =
          s.trace ++ [ApiCall.createCard lid ct.name ct.description ids] ∧
          ids.getD [] = ct.labels.filterMap (fun n => s.labelMap.lookup n) ∧
          ((∀ n ∈ ct.labels, s.labelMap.lookup n = none) → ids = none)) ∧
      (exceptFailed (o s.trace.length (mkCardCall s.labelMap lid ct)) = false →
        (create_card o lid ct s).progress.errors = s.progress.errors ∧
          (create_card o lid ct s).progress.cards_created =
            s.progress.cards_created + 1) := by
  constructor
  · refine ⟨if (resolveLabels s.labelMap ct.labels).isEmpty then none
      else some (resolveLabels s.labelMap ct.labels), ?_, ?_, ?_⟩
    · rw [create_card_trace]
      rfl
    · by_cases he : (resolveLabels s.labelMap ct.labels).isEmpty
      · rw [if_pos he]
        have : resolveLabels s.labelMap ct.labels = [] :=
          List.isEmpty_iff.mp he
        rw [show (none : Option (List String)).getD [] = [] from rfl]
        rw [← this]
        rfl
      · rw [if_neg he]
        rfl
    · intro hall
      have : resolveLabels s.labelMap ct.labels = [] := by
        unfold resolveLabels
        exact List.filterMap_eq_nil_iff.mpr hall
      rw [if_pos (by rw [this]; rfl)]
  · intro hok
    cases ho : o s.trace.length (mkCardCall s.labelMap lid ct) with
    | error e => rw [ho] at hok; exact absurd hok (by simp [exceptFailed])
    | ok r =>
        unfold create_card issueCall
        rw [ho]
        exact ⟨rfl, rfl⟩

/-- C6: in the request `update_card` builds, every argument passed as
`None` is omitted entirely; `labels=[]` sends `idLabels` as the empty
string; `due_date=""` sends `due` as the literal string `"null"`; and
for every card id the request built with `labels=[]` differs from the
request built when `labels` is not passed. -/
theorem update_card_clear_vs_omitted (k tk cid : String)
    (nm ds : Option String) (cl : Option Bool) (dd : Option String)
    (lbs : Option (List String)) :
    (nm = none → "name" ∉
        (update_card_request k tk cid nm ds cl dd lbs).params.map Prod.fst) ∧
      (ds = none → "desc" ∉
        (update_card_request k tk cid nm ds cl dd lbs).params.map Prod.fst) ∧
      (cl = none → "closed" ∉
        (update_card_request k tk cid nm ds cl dd lbs).params.map Prod.fst) ∧
      (dd = none → "due" ∉
        (update_card_request k tk cid nm ds cl dd lbs).params.map Prod.fst) ∧
      (lbs = none → "idLabels" ∉
        (update_card_request k tk cid nm ds cl dd lbs).params.map Prod.fst) ∧
      (lbs = some [] → ("idLabels", "") ∈
        (update_card_request k tk cid nm ds cl dd lbs).params) ∧
      (dd = some "" → ("due", "null") ∈
        (update_card_request k tk cid nm ds cl dd lbs).params) ∧
      update_card_request k tk cid nm ds cl dd (some []) ≠
        update_card_request k tk cid nm ds cl dd none := by
  refine ⟨?_, ?_, ?_, ?_, ?_, ?_, ?_, ?_⟩
  · rintro rfl
    cases ds <;> cases cl <;> cases dd <;> cases lbs <;>
      simp [update_card_request, update_card_params, optParam]
  · rintro rfl
    cases nm <;> cases cl <;> cases dd <;> cases lbs <;>
      simp [update_card_request, update_card_params, optParam]
  · rintro rfl
    cases nm <;> cases ds <;> cases dd <;> cases lbs <;>
      simp [update_card_request, update_card_params, optParam]
  · rintro rfl
    cases nm <;> cases ds <;> cases cl <;> cases lbs <;>
      simp [update_card_request, update_card_params, optParam]
  · rintro rfl
    cases nm <;> cases ds <;> cases cl <;> cases dd <;>
      simp [update_card_request, update_card_params, optParam]
  · rintro rfl
    cases nm <;> cases ds <;> cases cl <;> cases dd <;>
      simp [update_card_request, update_card_params, optParam]
  · rintro rfl
    cases nm <;> cases ds <;> cases cl <;> cases lbs <;>
      simp [update_card_request, update_card_params, optParam]
  · cases nm <;> cases ds <;> cases cl <;> cases dd <;>
      (intro heq;
       have hlen := congrArg (fun r => r.params.length) heq;
       simp [update_card_request, update_card_params, optParam] at hlen)

/-- C7 counterexample: a 304 response is not 2xx, yet `_request` does
not raise on it — `raise_for_status` of the requests library raises
only for 4xx/5xx — so with a decodable body `_request` returns the body
as a success. -/
theorem request_non2xx_not_raised :
    request_ (HttpOutcome.response
        { status := 304, text := "Not Modified", json := Except.ok "cached-body" }) =
      Except.ok "cached-body" ∧
    ¬(200 ≤ 304 ∧ 304 ≤ 299) := by
  constructor
  · rfl
  · decide

/-- C7 (amended): on a 4xx or 5xx HTTP response `_request` raises
`TrelloAPIError` carrying the numeric status and a message built from
the parsed JSON error body, falling back to the raw response text when
JSON parsing fails; on a transport-level failure it raises
`TrelloAPIError` with a generic Request-failed message and no status
code.  (Statuses 300-399 do not raise: `raise_for_status` raises only
for 400-599.) -/
theorem request_error_mapping (r : HttpResponse) (e : String) :
    (400 ≤ r.status ∧ r.status < 600 →
        request_ (HttpOutcome.response r) =
          Except.error
            { message := "Trello API error: " ++
                (match r.json with
                  | Except.ok detail => detail
                  | Except.error _ => r.text),
              status_code := some r.status }) ∧
      request_ (HttpOutcome.transportFailure e) =
        Except.error { message := "Request failed: " ++ e, status_code := none } := by
  constructor
  · intro hst
    simp only [request_]
    rw [if_pos hst]
    cases r.json <;> rfl
  · rfl

/-- C8: `validate_credentials` rejects an API key shorter than 16
characters with the key-too-short message, and, when the key is long
enough, a token shorter than 32 characters with the distinct
token-too-short message; it returns True exactly when both checks pass;
and in the CLI a credential-validation failure yields exit code 1 with
no network request made (the network lives entirely in the phase after
validation). -/
theorem validate_credentials_spec (c cr : TrelloCredentials) (args : CliArgs)
    (rest : TrelloCredentials → Nat × List Request) :
    (c.api_key.length < 16 →
        validate_credentials c = Except.error keyTooShortMsg) ∧
      (16 ≤ c.api_key.length → c.token.length < 32 →
        validate_credentials c = Except.error tokenTooShortMsg) ∧
      (validate_credentials c = Except.ok true ↔
        16 ≤ c.api_key.length ∧ 32 ≤ c.token.length) ∧
      keyTooShortMsg ≠ tokenTooShortMsg ∧
      (args.setup_help = false → args.dry_run = false →
        (cr.api_key.length < 16 ∨ cr.token.length < 32) →
        main args (Except.ok cr) rest = (1, [])) := by
  refine ⟨?_, ?_, ?_, ?_, ?_⟩
  · intro h
    simp [validate_credentials, h]
  · intro h1 h2
    rw [validate_credentials, if_neg (by omega), if_pos h2]
  · unfold validate_credentials
    split_ifs with h1 h2
    · simp; omega
    · simp; omega
    · simp; omega
  · decide
  · intro h1 h2 h3
    have hv : ∃ m, validate_credentials cr = Except.error m := by
      unfold validate_credentials
      rcases h3 with h3 | h3
      · exact ⟨keyTooShortMsg, by rw [if_pos h3]⟩
      · by_cases hk : cr.api_key.length < 16
        · exact ⟨keyTooShortMsg, by rw [if_pos hk]⟩
        · exact ⟨tokenTooShortMsg, by rw [if_neg hk, if_pos h3]⟩
    obtain ⟨m, hm⟩ := hv
    simp [main, h1, h2, hm]

/-- C9: in the static tech-career template every label name referenced
by any card of any list is the name of some label of the template's
label list. -/
theorem tech_template_label_integrity :
    templateLabelIntegrity get_tech_career_template = true ∧
      ∀ lt ∈ get_tech_career_template.lists, ∀ ct ∈ lt.cards,
        ∀ n ∈ ct.labels,
          ∃ lb ∈ get_tech_career_template.labels, lb.name = n := by
  constructor
  · rfl
  · decide

/-- C10: in the interactive move-cards flow, when the selected target
list has the same id as the source list and the card selection is not
empty, no move call is issued at all, the operation prints that no cards
were moved, and it returns False. -/
theorem move_cards_same_list (ls cards sel : List RemoteObj)
    (src tgt : RemoteObj)
    (selectSource selectTarget : List RemoteObj → Option RemoteObj)
    (fetchCards : String → Except TrelloAPIError (List RemoteObj))
    (selectCardsFn : List RemoteObj → List RemoteObj)
    (mv : String → String → Except TrelloAPIError Unit)
    (h1 : selectSource ls = some src)
    (h2 : fetchCards src.id = Except.ok cards)
    (h3 : selectCardsFn cards = sel)
    (h4 : sel ≠ [])
    (h5 : selectTarget ls = some tgt)
    (h6 : tgt.id = src.id) :
    move_cards (Except.ok ls) selectSource fetchCards selectCardsFn
        selectTarget mv =
      (false, [], ["Source and target list are the same. No cards moved."]) := by
  have hne : sel.isEmpty = false := by
    cases sel with
    | nil => exact absurd rfl h4
    | cons a as => rfl
  simp only [move_cards, h1, h2, h3, hne, Bool.false_eq_true, if_false, h5]
  rw [if_pos h6]

/-- Witness for C1: the theorem applied to the fixture template and the
always-succeeding oracle. -/
theorem generate_allOk_trace_and_counts_witness :
    (∃ gb : GeneratedBoard,
        (generate wOracle wTemplate none).2 = Except.ok gb ∧
          gb.labels_created = wTemplate.labels.length ∧
          gb.lists_created = wTemplate.lists.length ∧
          gb.cards_created = totalCards wTemplate) ∧
      (generate wOracle wTemplate none).1.trace.map callKind =
        CallKind.board (resolveBoardName none wTemplate) ::
          (wTemplate.labels.map (fun l => CallKind.label l.name) ++
            wTemplate.lists.flatMap (fun lt =>
              CallKind.listC lt.name ::
                lt.cards.map (fun c => CallKind.card c.name))) :=
  generate_allOk_trace_and_counts wOracle wTemplate none (fun _ _ => rfl)

/-- Witness for C5: a card referencing the unmapped name Missing next
to the mapped name Priority, under the always-succeeding oracle. -/
theorem create_card_unresolved_label_witness :
    (∃ ids : Option (List String),
        (create_card wOracle "L1"
            { name := "cardA", description := "", labels := ["Priority", "Missing"] }
            { trace := [], progress := {}, labelMap := [("Priority", "lid1")] }).trace =
          [] ++ [ApiCall.createCard "L1" "cardA" "" ids] ∧
          ids.getD [] =
            ["Priority", "Missing"].filterMap
              (fun n => [("Priority", "lid1")].lookup n) ∧
          ((∀ n ∈ ["Priority", "Missing"],
              [("Priority", "lid1")].lookup n = (none : Option String)) →
            ids = none)) ∧
      (exceptFailed (wOracle 0
            (mkCardCall [("Priority", "lid1")] "L1"
              { name := "cardA", description := "",
                labels := ["Priority", "Missing"] })) = false →
        (create_card wOracle "L1"
            { name := "cardA", description := "", labels := ["Priority", "Missing"] }
            { trace := [], progress := {},
              labelMap := [("Priority", "lid1")] }).progress.errors = [] ∧
          (create_card wOracle "L1"
              { name := "cardA", description := "",
                labels := ["Priority", "Missing"] }
              { trace := [], progress := {},
                labelMap := [("Priority", "lid1")] }).progress.cards_created =
            0 + 1) :=
  create_card_unresolved_label wOracle "L1"
    { name := "cardA", description := "", labels := ["Priority", "Missing"] }
    { trace := [], progress := {}, labelMap := [("Priority", "lid1")] }
    ⟨"Missing", by decide, rfl⟩

/-- Witness for C10: a one-list board where source and target coincide
and one card is selected. -/
theorem move_cards_same_list_witness :
    move_cards (Except.ok [{ id := "L1", name := "Alpha" }])
        (fun l => l.head?)
        (fun _ => Except.ok [{ id := "c1", name := "X" }])
        (fun cs => cs)
        (fun l => l.head?)
        (fun _ _ => Except.ok ()) =
      (false, [], ["Source and target list are the same. No cards moved."]) :=
  move_cards_same_list [{ id := "L1", name := "Alpha" }]
    [{ id := "c1", name := "X" }] [{ id := "c1", name := "X" }]
    { id := "L1", name := "Alpha" } { id := "L1", name := "Alpha" }
    (fun l => l.head?) (fun l => l.head?)
    (fun _ => Except.ok [{ id := "c1", name := "X" }])
    (fun cs => cs) (fun _ _ => Except.ok ())
    rfl rfl rfl (by simp) rfl rfl

end Trello
